import Mathlib

/-!
Verification of the `r-shape` package recipe
(`var/spack/repos/builtin/packages/r-shape/package.py`).

The recipe is a static metadata record: a description, a homepage URL, a
concrete download URL, a listing URL, and an ordered table of
(version label, MD5 checksum) pairs built by successive `version(...)`
directive calls.  The host orchestrator (not part of this repository's
sources) derives a URL template from the record and resolves download
URLs by substituting version labels into that template; those operations
are modelled from the specification and marked as such below.
-/

/-- A package recipe record: the fields the spec names for the external
interface of a recipe (`description`, `homepage`, `url`, `list_url`,
`versions`).  `versions` is an ordered collection of
(version label, checksum) pairs, kept in declaration order. -/
structure RecipeRecord where
  description : String
  homepage : String
  url : String
  list_url : String
  versions : List (String × String)
deriving DecidableEq

/-- One `version(label, checksum)` directive call: it appends the new
(label, checksum) entry to the versions table, preserving call order. -/
def version_directive (tbl : List (String × String))
    (label checksum : String) : List (String × String) :=
  tbl ++ [(label, checksum)]

/-- The `RShape` record, field for field from
`var/spack/repos/builtin/packages/r-shape/package.py`: the class docstring,
the `homepage`, `url` and `list_url` attributes, and the versions table
built by the two `version(...)` directive calls in source order. -/
def RShape : RecipeRecord :=
  { description :=
      "Functions for plotting graphical shapes such as ellipses, circles,\n       cylinders, arrows, ..."
    homepage := "https://cran.r-project.org/package=shape"
    url := "https://cran.r-project.org/src/contrib/shape_1.4.3.tar.gz"
    list_url := "https://cran.r-project.org/src/contrib/Archive/shape"
    versions :=
      version_directive
        (version_directive [] "1.4.3" "2a807bf95e7decc71478f805221852da")
        "1.4.2" "75557c43a385b9cc0c4dff361af6e06c" }

/-- Strip `pat` from the front of `cs`: `some rest` when `cs = pat ++ rest`,
`none` otherwise. -/
def stripPrefixChars : List Char → List Char → Option (List Char)
  | [], cs => some cs
  | _ :: _, [] => none
  | p :: ps, c :: cs => if p = c then stripPrefixChars ps cs else none

/-- Replace every occurrence of `pat` in the subject list by `repl`,
scanning left to right; `fuel` bounds the number of scanning steps (each
step consumes at least one subject character, so `fuel` = subject length
always suffices). -/
def replaceFuel (pat repl : List Char) : Nat → List Char → List Char
  | 0, cs => cs
  | _ + 1, [] => []
  | fuel + 1, c :: cs =>
    match stripPrefixChars pat (c :: cs) with
    | some rest => repl ++ replaceFuel pat repl fuel rest
    | none => c :: replaceFuel pat repl fuel cs

/-- Modelled from the spec: plain textual substitution — replace every
occurrence of `pat` in `s` by `repl`.  This is the substitution operation
the spec's `resolve_download_url` contract describes; the orchestrator
code that performs it is not part of this repository's sources. -/
def replace_all (s pat repl : String) : String :=
  ⟨replaceFuel pat.data repl.data s.data.length s.data⟩

/-- The version placeholder the spec's `url_template` contains. -/
def placeholder : String := "{version}"

/-- Modelled from the spec: the record's `url_template` — a URL string
containing a version placeholder.  The source stores the concrete URL of
the first declared version; the orchestrator (absent from the sources)
derives the template by replacing that version label in the stored `url`
with the placeholder, exactly as the spec's example template
`https://cran.r-project.org/src/contrib/shape_{version}.tar.gz` shows. -/
def RecipeRecord.url_template (r : RecipeRecord) : String :=
  match r.versions with
  | [] => r.url
  | (v, _) :: _ => replace_all r.url v placeholder

/-- Modelled from the spec: the lookup operation
`resolve_download_url(version)` — substitute the requested version label
into the record's `url_template`. -/
def RecipeRecord.resolve_download_url (r : RecipeRecord) (label : String) :
    String :=
  replace_all (RecipeRecord.url_template r) placeholder label

/-- A hexadecimal digit: `0`-`9`, `a`-`f` or `A`-`F`. -/
def is_hex_digit (c : Char) : Bool :=
  (decide (Char.ofNat 48 ≤ c) && decide (c ≤ Char.ofNat 57)) ||
  (decide (Char.ofNat 97 ≤ c) && decide (c ≤ Char.ofNat 102)) ||
  (decide (Char.ofNat 65 ≤ c) && decide (c ≤ Char.ofNat 70))

/-- Characters admissible in the URLs this record synthesizes:
letters, digits, and the URI punctuation the record's URLs use. -/
def is_uri_char (c : Char) : Bool :=
  c.isAlphanum || c = Char.ofNat 45 || c = Char.ofNat 46 ||
  c = Char.ofNat 95 || c = Char.ofNat 126 || c = Char.ofNat 58 ||
  c = Char.ofNat 47 || c = Char.ofNat 63 || c = Char.ofNat 61 ||
  c = Char.ofNat 38 || c = Char.ofNat 37 || c = Char.ofNat 43

/-- Modelled from the spec: a syntactic URL well-formedness check (the
spec asks that substitution "yields a syntactically valid URL" but names
no checker, and none is in the sources): the string starts with an
`http://` or `https://` scheme, continues past the scheme, and consists
only of admissible URI characters. -/
def is_valid_url (s : String) : Bool :=
  (List.isPrefixOf "https://".data s.data &&
     decide (8 < s.data.length) ||
   List.isPrefixOf "http://".data s.data &&
     decide (7 < s.data.length)) &&
  s.data.all is_uri_char

/-- Modelled from the spec: serialization of the record's fields into a
key/value listing — the four scalar metadata fields under their own
names, then one `version <label>` entry per versions-table row, in table
order. -/
def serialize_record (r : RecipeRecord) : List (String × String) :=
  [("description", r.description), ("homepage", r.homepage),
   ("url", r.url), ("list_url", r.list_url)] ++
  r.versions.map (fun p => ("version " ++ p.1, p.2))

/-- First value bound to `key` in a key/value listing. -/
def lookup_field (key : String) : List (String × String) → Option String
  | [] => none
  | (k, v) :: rest => if k = key then some v else lookup_field key rest

/-- Recover a versions-table row from a serialized key/value pair: a key
of the form `version <label>` yields the (label, checksum) row. -/
def version_entry_of (kv : String × String) : Option (String × String) :=
  match stripPrefixChars "version ".data kv.1.data with
  | some rest => some (⟨rest⟩, kv.2)
  | none => none

/-- Modelled from the spec: parsing a key/value listing back into a
record — the four scalar fields are looked up by name (all must be
present), and the versions table is rebuilt from the `version <label>`
entries in listing order. -/
def parse_record (kvs : List (String × String)) : Option RecipeRecord :=
  match lookup_field "description" kvs, lookup_field "homepage" kvs,
      lookup_field "url" kvs, lookup_field "list_url" kvs with
  | some d, some h, some u, some lu =>
      some { description := d, homepage := h, url := u, list_url := lu,
             versions := kvs.filterMap version_entry_of }
  | _, _, _, _ => none

/-- Reading `description`, modelled as a state-passing operation: the
returned record is the post-state. -/
def read_description (r : RecipeRecord) : String × RecipeRecord :=
  (r.description, r)

/-- Reading `homepage`, modelled as a state-passing operation. -/
def read_homepage (r : RecipeRecord) : String × RecipeRecord :=
  (r.homepage, r)

/-- Reading `url`, modelled as a state-passing operation. -/
def read_url (r : RecipeRecord) : String × RecipeRecord :=
  (r.url, r)

/-- Reading `list_url`, modelled as a state-passing operation. -/
def read_list_url (r : RecipeRecord) : String × RecipeRecord :=
  (r.list_url, r)

/-- Reading the versions table, modelled as a state-passing operation. -/
def read_versions (r : RecipeRecord) :
    List (String × String) × RecipeRecord :=
  (r.versions, r)

/-- `resolve_download_url`, modelled as a state-passing operation: the
returned record is the post-state. -/
def resolve_download_url_op (r : RecipeRecord) (label : String) :
    String × RecipeRecord :=
  (RecipeRecord.resolve_download_url r label, r)

/-- C1: for the declared version `"1.4.3"`, `resolve_download_url` on the
RShape record — substituting the label into the record's URL template —
returns exactly `https://cran.r-project.org/src/contrib/shape_1.4.3.tar.gz`. -/
theorem C1_resolve_download_url_143 :
    RecipeRecord.resolve_download_url RShape "1.4.3" =
      "https://cran.r-project.org/src/contrib/shape_1.4.3.tar.gz" := by
  decide

/-- C2: `resolve_download_url` validates nothing: for every version-label
string, declared or not, it totally returns the URL template with that
label substituted for the placeholder — here made explicit as the
template's prefix, then the label, then its suffix — and never fails. -/
theorem C2_resolve_download_url_total (label : String) :
    RecipeRecord.resolve_download_url RShape label =
      "https://cran.r-project.org/src/contrib/shape_" ++ label ++
        ".tar.gz" := rfl

/-- C3: version labels are unique within the RShape record: the list of
labels of its versions table has no duplicate. -/
theorem C3_version_labels_nodup :
    (RShape.versions.map Prod.fst).Nodup := by
  decide

/-- C4: every checksum in the RShape versions table is a well-formed MD5
digest: exactly 32 characters, all from the hexadecimal alphabet. -/
theorem C4_checksums_wellformed (p : String × String)
    (h : p ∈ RShape.versions) :
    p.2.length = 32 ∧ p.2.data.all is_hex_digit = true := by
  fin_cases h <;> exact ⟨by decide, by decide⟩

/-- C4 witness: the `"1.4.3"` row is in the table and its checksum is a
well-formed 32-character hexadecimal digest. -/
theorem C4_checksums_wellformed_witness :
    ("1.4.3", "2a807bf95e7decc71478f805221852da") ∈ RShape.versions ∧
      ("2a807bf95e7decc71478f805221852da" : String).length = 32 ∧
      ("2a807bf95e7decc71478f805221852da" : String).data.all is_hex_digit
        = true :=
  ⟨by decide,
   C4_checksums_wellformed ("1.4.3", "2a807bf95e7decc71478f805221852da")
     (by decide)⟩

/-- C5: substituting any declared version label of the RShape record into
the URL template yields a syntactically valid URL. -/
theorem C5_resolved_urls_valid (p : String × String)
    (h : p ∈ RShape.versions) :
    is_valid_url (RecipeRecord.resolve_download_url RShape p.1) = true := by
  fin_cases h <;> decide

/-- C5 witness: the `"1.4.3"` row is in the table and its resolved
download URL passes the syntactic URL check. -/
theorem C5_resolved_urls_valid_witness :
    ("1.4.3", "2a807bf95e7decc71478f805221852da") ∈ RShape.versions ∧
      is_valid_url (RecipeRecord.resolve_download_url RShape "1.4.3")
        = true :=
  ⟨by decide,
   C5_resolved_urls_valid ("1.4.3", "2a807bf95e7decc71478f805221852da")
     (by decide)⟩

/-- C6: the versions table, built by the two `version(...)` directive
calls, holds its entries in declaration order: `"1.4.3"` first, then
`"1.4.2"`, each with its declared checksum. -/
theorem C6_versions_declaration_order :
    RShape.versions =
      [("1.4.3", "2a807bf95e7decc71478f805221852da"),
       ("1.4.2", "75557c43a385b9cc0c4dff361af6e06c")] := by
  decide

/-- C7: round-trip — serializing the RShape record's fields to a
key/value listing and parsing that listing back yields the record,
field for field. -/
theorem C7_round_trip :
    parse_record (serialize_record RShape) = some RShape := by
  decide

/-- C8: reading any metadata field and calling `resolve_download_url`,
modelled as state-passing operations, leave every field of the record
unchanged: each operation's post-state is the input record. -/
theorem C8_operations_pure (r : RecipeRecord) (label : String) :
    (read_description r).2 = r ∧ (read_homepage r).2 = r ∧
      (read_url r).2 = r ∧ (read_list_url r).2 = r ∧
      (read_versions r).2 = r ∧
      (resolve_download_url_op r label).2 = r :=
  ⟨rfl, rfl, rfl, rfl, rfl, rfl⟩

/-- C9: the record's stored `url` is the resolved download URL of the
first declared version: `"1.4.3"` heads the table, the derived template
is the spec's `https://cran.r-project.org/src/contrib/shape_{version}.tar.gz`,
and resolving `"1.4.3"` gives back exactly the stored `url`. -/
theorem C9_url_is_first_version_resolved :
    (RShape.versions.map Prod.fst).head? = some "1.4.3" ∧
      RecipeRecord.url_template RShape =
        "https://cran.r-project.org/src/contrib/shape_{version}.tar.gz" ∧
      RecipeRecord.resolve_download_url RShape "1.4.3" = RShape.url := by
  refine ⟨by decide, by decide, by decide⟩

/-- C10: `resolve_download_url` is deterministic and depends only on the
label and the record's URL template: two invocations on records with
equal templates and equal labels return identical URLs, whatever the
records' other fields. -/
theorem C10_resolve_deterministic (r1 r2 : RecipeRecord)
    (label1 label2 : String)
    (ht : RecipeRecord.url_template r1 = RecipeRecord.url_template r2)
    (hl : label1 = label2) :
    RecipeRecord.resolve_download_url r1 label1 =
      RecipeRecord.resolve_download_url r2 label2 := by
  unfold RecipeRecord.resolve_download_url
  rw [ht, hl]

/-- C10 witness: two invocations on the RShape record with the label
`"9.9.9"` (not even a declared version) return identical URLs. -/
theorem C10_resolve_deterministic_witness :
    RecipeRecord.url_template RShape = RecipeRecord.url_template RShape ∧
      ("9.9.9" : String) = "9.9.9" ∧
      RecipeRecord.resolve_download_url RShape "9.9.9" =
        RecipeRecord.resolve_download_url RShape "9.9.9" :=
  ⟨rfl, rfl, C10_resolve_deterministic RShape RShape "9.9.9" "9.9.9" rfl rfl⟩
